import Mathlib

/-!
Verification of the OCP TAP TimeCard platform description
(`litex_boards/platforms/ocp_tap_timecard.py`).

The file is a declarative platform descriptor: a pin/IO table (`_io`),
a `Platform` class fixing the device string, the toolchain command lists
and the default clock, a `create_programmer` selector and a `do_finalize`
hook.  The definitions below embed that data and those operations.
The litex framework primitives used by `do_finalize` (resource lookup and
period-constraint registration) are not part of this repository; they are
modelled from the specification and marked as such.
-/

/-- A `Subsignal(name, Pins(...), [IOStandard], [Misc...])` entry of the
source pin table: a named sub-pin group of a composite resource. -/
structure Subsignal where
  sname : String
  spins : List String
  siostandard : Option String
  smisc : List String
deriving DecidableEq

/-- One top-level entry of the `_io` list: a `(name, number, ...)` resource,
either with direct `Pins` (and the composite case has `subsignals` instead),
an optional resource-level `IOStandard` and `Misc` attributes. -/
structure Resource where
  name : String
  number : Nat
  pins : List String
  subsignals : List Subsignal
  iostandard : Option String
  misc : List String
deriving DecidableEq

/-- `Pins("A1 B2 ...")`: a space-separated identifier string denoting an
ordered list of physical package pins (litex splits on whitespace). -/
def splitPinChars : List Char → List Char → List String
  | [], acc => if acc.isEmpty then [] else [String.mk acc.reverse]
  | c :: rest, acc =>
    if c = ' ' then
      if acc.isEmpty then splitPinChars rest []
      else String.mk acc.reverse :: splitPinChars rest []
    else splitPinChars rest (c :: acc)

/-- Parse a `Pins` identifier string into the ordered pin list. -/
def Pins (s : String) : List String := splitPinChars s.toList []

/-- Shorthand for a simple resource carrying direct pins. -/
def simpleRes (name : String) (number : Nat) (pins : List String)
    (iostd : Option String) (misc : List String) : Resource :=
  ⟨name, number, pins, [], iostd, misc⟩

/-- Shorthand for a composite resource made of subsignals. -/
def compositeRes (name : String) (number : Nat) (subs : List Subsignal)
    (iostd : Option String) : Resource :=
  ⟨name, number, [], subs, iostd, []⟩

/-- The `_io` table of the source file, entry by entry in source order. -/
def io_entries : List Resource := [
  -- Clk / Rst.
  compositeRes "clk125" 0 [
    ⟨"p", Pins "F6", some "DIFF_SSTL15", []⟩,
    ⟨"n", Pins "E6", some "DIFF_SSTL15", []⟩] none,
  compositeRes "clk200" 0 [
    ⟨"p", Pins "R4", some "DIFF_SSTL15", []⟩,
    ⟨"n", Pins "T4", some "DIFF_SSTL15", []⟩] none,
  simpleRes "rst_n" 0 (Pins "T6") (some "LVCMOS15") [],
  -- Leds.
  simpleRes "user_led" 0 (Pins "B13") (some "LVCMOS33") [],
  simpleRes "user_led" 1 (Pins "C13") (some "LVCMOS33") [],
  simpleRes "user_led" 2 (Pins "D14") (some "LVCMOS33") [],
  simpleRes "user_led" 3 (Pins "D15") (some "LVCMOS33") [],
  -- Buttons.
  simpleRes "user_btn" 0 (Pins "J21") (some "LVCMOS33") [],
  simpleRes "user_btn" 1 (Pins "E13") (some "LVCMOS33") [],
  -- SPIFlash.
  simpleRes "flash_cs_n" 0 (Pins "T19") (some "LVCMOS33") [],
  compositeRes "flash" 0 [
    ⟨"mosi", Pins "P22", none, []⟩,
    ⟨"miso", Pins "R22", none, []⟩,
    ⟨"wp",   Pins "P21", none, []⟩,
    ⟨"hold", Pins "R21", none, []⟩] (some "LVCMOS33"),
  -- PCIe.
  compositeRes "pcie_x1" 0 [
    ⟨"rst_n", Pins "J20", some "LVCMOS33", ["PULLUP=TRUE"]⟩,
    ⟨"clk_p", Pins "F10", none, []⟩,
    ⟨"clk_n", Pins "E10", none, []⟩,
    ⟨"rx_p",  Pins "D11", none, []⟩,
    ⟨"rx_n",  Pins "C11", none, []⟩,
    ⟨"tx_p",  Pins "D5",  none, []⟩,
    ⟨"tx_n",  Pins "C5",  none, []⟩] none,
  -- Leds.
  simpleRes "led" 0 (Pins "E21") (some "LVCMOS33") [],
  simpleRes "led" 1 (Pins "D21") (some "LVCMOS33") [],
  simpleRes "led" 2 (Pins "E22") (some "LVCMOS33") [],
  simpleRes "led" 3 (Pins "D22") (some "LVCMOS33") [],
  -- I2C.
  compositeRes "i2c" 0 [
    ⟨"scl", Pins "N17", none, ["PULLUP=True"]⟩,
    ⟨"sda", Pins "T16", none, ["PULLUP=True"]⟩] (some "LVCMOS33"),
  -- PMOD.
  simpleRes "pmod" 0 (Pins "M22 N22 H18 H17 H22 J22 K21 K22") (some "LVCMOS33") [],
  -- GPS.
  compositeRes "gps" 0 [
    ⟨"rst_n", Pins "Y16", none, []⟩,
    ⟨"tx",    Pins "P20", none, []⟩,
    ⟨"rx",    Pins "N15", none, []⟩,
    ⟨"tp",    Pins "W14 Y14", none, []⟩] (some "LVCMOS33"),
  compositeRes "gps" 1 [
    ⟨"rst_n", Pins "G15", none, []⟩,
    ⟨"tx",    Pins "M17", none, []⟩,
    ⟨"rx",    Pins "J16", none, []⟩,
    ⟨"tp",    Pins "G17 G18", none, []⟩] (some "LVCMOS33"),
  -- SMAs.
  compositeRes "sma" 0 [
    ⟨"in",     Pins "Y11", some "LVCMOS33", ["PULLDOWN=TRUE"]⟩,
    ⟨"in_en",  Pins "H15", some "LVCMOS33", []⟩,
    ⟨"out",    Pins "W11", some "LVCMOS33", ["DRIVE=16"]⟩,
    ⟨"out_en", Pins "J15", some "LVCMOS33", []⟩] none,
  compositeRes "sma" 1 [
    ⟨"in",     Pins "Y12", some "LVCMOS33", ["PULLDOWN=TRUE"]⟩,
    ⟨"in_en",  Pins "J14", some "LVCMOS33", []⟩,
    ⟨"out",    Pins "W12", some "LVCMOS33", ["DRIVE=16"]⟩,
    ⟨"out_en", Pins "H14", some "LVCMOS33", []⟩] none,
  compositeRes "sma" 2 [
    ⟨"in",     Pins "AA21", some "LVCMOS33", ["PULLDOWN=TRUE"]⟩,
    ⟨"in_en",  Pins "K14",  some "LVCMOS33", []⟩,
    ⟨"out",    Pins "V10",  some "LVCMOS33", ["DRIVE=16"]⟩,
    ⟨"out_en", Pins "K13",  some "LVCMOS33", []⟩] none,
  compositeRes "sma" 2 [
    ⟨"in",     Pins "AA20", some "LVCMOS33", ["PULLDOWN=TRUE"]⟩,
    ⟨"in_en",  Pins "L13",  some "LVCMOS33", []⟩,
    ⟨"out",    Pins "W10",  some "LVCMOS33", ["DRIVE=16"]⟩,
    ⟨"out_en", Pins "M13",  some "LVCMOS33", []⟩] none
]

/-- All physical pins referenced by one resource: its direct pins together
with the pins of all its subsignals, in order. -/
def allPins (r : Resource) : List String :=
  r.pins ++ r.subsignals.flatMap Subsignal.spins

/-- The platform descriptor built by `Platform.__init__`: device string,
IO table, the toolchain name it was constructed with, the default clock
class attributes and the two toolchain command lists. -/
structure Platform where
  device : String
  io_table : List Resource
  toolchain_name : String
  default_clk_name : String
  default_clk_period : ℚ
  bitstream_commands : List String
  additional_commands : List String
deriving DecidableEq

/-- Default value of the `toolchain` parameter of `Platform.__init__`. -/
def default_toolchain : String := "vivado"

/-- `Platform.__init__(toolchain)`: passes the device string and `_io` to
the base constructor, and sets `bitstream_commands` and
`additional_commands` on the toolchain.  The clock period `1e9/200e6` is
computed in exact rational arithmetic (both operands and the quotient are
exactly representable, so this agrees with the source's float value). -/
def Platform.init (toolchain : String) : Platform :=
  { device := "xc7a100t-fgg484-2"
    io_table := io_entries
    toolchain_name := toolchain
    default_clk_name := "clk200"
    default_clk_period := 1000000000 / 200000000
    bitstream_commands := [
      "set_property BITSTREAM.CONFIG.SPI_BUSWIDTH 4 [current_design]",
      "set_property BITSTREAM.CONFIG.CONFIGRATE 16 [current_design]",
      "set_property BITSTREAM.GENERAL.COMPRESS TRUE [current_design]",
      "set_property CFGBVS VCCO [current_design]",
      "set_property CONFIG_VOLTAGE 3.3 [current_design]"]
    additional_commands := [
      -- Non-Multiboot SPI-Flash bitstream generation.
      "write_cfgmem -force -format bin -interface spix4 -size 16 -loadbit \"up 0x0 {build_name}.bit\" -file {build_name}.bin",
      -- Multiboot SPI-Flash Operational bitstream generation.
      "set_property BITSTREAM.CONFIG.TIMER_CFG 0x0001fbd0 [current_design]",
      "set_property BITSTREAM.CONFIG.CONFIGFALLBACK Enable [current_design]",
      "write_bitstream -force {build_name}_operational.bit ",
      "write_cfgmem -force -format bin -interface spix4 -size 16 -loadbit \"up 0x0 {build_name}_operational.bit\" -file {build_name}_operational.bin",
      -- Multiboot SPI-Flash Fallback bitstream generation.
      "set_property BITSTREAM.CONFIG.NEXT_CONFIG_ADDR 0x00400000 [current_design]",
      "write_bitstream -force {build_name}_fallback.bit ",
      "write_cfgmem -force -format bin -interface spix4 -size 16 -loadbit \"up 0x0 {build_name}_fallback.bit\" -file {build_name}_fallback.bin"] }

/-- A programmer handle: either an `OpenOCD(config, flash_proxy)` backend
or a `VivadoProgrammer(flash_part=...)` backend, each carrying its
connection parameters as in the source. -/
inductive Programmer where
  | OpenOCD (config : String) (flash_proxy : String)
  | VivadoProgrammer (flash_part : String)
deriving DecidableEq

/-- Default value of the `name` parameter of `create_programmer`. -/
def default_programmer_name : String := "openocd"

/-- `Platform.create_programmer(name)`: exact string dispatch over
`"openocd"` and `"vivado"`.  The source has no `else` branch, so any other
name falls off the end of the Python function, returning `None`; that
unsupported-name outcome is embedded as `Option.none`. -/
def create_programmer (name : String) : Option Programmer :=
  if name = "openocd" then
    some (Programmer.OpenOCD "openocd_xc7_ft232.cfg" "bscan_spi_xc7a200t.bit")
  else if name = "vivado" then
    some (Programmer.VivadoProgrammer "s25fl256sxxxxxx0-spi-x1_x2_x4")
  else
    none

/-- Modelled from the spec: the error kind raised when the default clock
cannot be resolved in a finalized design (`MissingClockConstraint`, spec
sections 4.1 and 7).  The litex lookup machinery is not in this repository. -/
inductive FinalizeError where
  | MissingClockConstraint
deriving DecidableEq

/-- A derived timing constraint: an upper bound (in ns) on the period of a
named clock. -/
structure PeriodConstraint where
  clk : String
  max_period_ns : ℚ
deriving DecidableEq

/-- Modelled from the spec: a fully elaborated design as seen by
`finalize` — the set of clock-like resource names resolvable (even
loosely, i.e. after renaming or merging during elaboration) and the
timing constraints accumulated so far.  The litex fragment/constraint
manager types are not in this repository. -/
structure Design where
  clock_resources : List String
  period_constraints : List PeriodConstraint
deriving DecidableEq

/-- Modelled from the spec: `lookup_request(name, loose=True)` resolves a
clock-like resource by name; per spec section 4.1 it fails with the
`MissingClockConstraint` kind when no resource resolvable (even loosely)
to the name exists in the finalized design.  The litex implementation is
not in this repository. -/
def lookup_request (d : Design) (name : String) : Except FinalizeError String :=
  if name ∈ d.clock_resources then Except.ok name
  else Except.error FinalizeError.MissingClockConstraint

/-- Modelled from the spec: `add_period_constraint(clk, period)` appends
one derived timing constraint bounding the clock's period.  The litex
implementation is not in this repository. -/
def add_period_constraint (d : Design) (clk : String) (period : ℚ) : Design :=
  { d with period_constraints := d.period_constraints ++ [⟨clk, period⟩] }

/-- `Platform.do_finalize(fragment)`: first runs the base platform's
finalize step (external, abstracted as `base`), then looks up `"clk200"`
loosely and adds a `1e9/200e6` ns period constraint on it.  Failure of the
lookup propagates. -/
def do_finalize (base : Design → Design) (d : Design) : Except FinalizeError Design :=
  let d1 := base d
  match lookup_request d1 "clk200" with
  | Except.error e => Except.error e
  | Except.ok clk => Except.ok (add_period_constraint d1 clk (1000000000 / 200000000))

/-! Theorems.  One theorem per claim, with witnesses for theorems that
carry hypotheses and counterexamples where the claim fails on the code. -/

/-- Helper: the default clock period `1e9/200e6` equals 5 (ns). -/
theorem period_ns_eq_five : (1000000000 : ℚ) / 200000000 = 5 := by norm_num

/-- C1 (counterexample): as stated the claim is false — for the concrete
construction `Platform.init "vivado"`, the post-build command list
(`additional_commands`) has 8 entries, not 6. -/
theorem post_build_commands_not_six :
    (Platform.init "vivado").additional_commands.length = 8 ∧
    (Platform.init "vivado").additional_commands.length ≠ 6 :=
  ⟨rfl, by decide⟩

/-- C1 (amended): for every construction, `bitstream_commands` is exactly
the 5 directives of spec section 4.1 in order, and the post-build command
list is exactly the 8 directives of the source in the order of spec
section 4.1 (its items 4 and 6 each comprise two commands: a
`write_bitstream` and a `write_cfgmem`). -/
theorem command_lists_exact (toolchain : String) :
    (Platform.init toolchain).bitstream_commands = [
      "set_property BITSTREAM.CONFIG.SPI_BUSWIDTH 4 [current_design]",
      "set_property BITSTREAM.CONFIG.CONFIGRATE 16 [current_design]",
      "set_property BITSTREAM.GENERAL.COMPRESS TRUE [current_design]",
      "set_property CFGBVS VCCO [current_design]",
      "set_property CONFIG_VOLTAGE 3.3 [current_design]"] ∧
    (Platform.init toolchain).additional_commands = [
      "write_cfgmem -force -format bin -interface spix4 -size 16 -loadbit \"up 0x0 {build_name}.bit\" -file {build_name}.bin",
      "set_property BITSTREAM.CONFIG.TIMER_CFG 0x0001fbd0 [current_design]",
      "set_property BITSTREAM.CONFIG.CONFIGFALLBACK Enable [current_design]",
      "write_bitstream -force {build_name}_operational.bit ",
      "write_cfgmem -force -format bin -interface spix4 -size 16 -loadbit \"up 0x0 {build_name}_operational.bit\" -file {build_name}_operational.bin",
      "set_property BITSTREAM.CONFIG.NEXT_CONFIG_ADDR 0x00400000 [current_design]",
      "write_bitstream -force {build_name}_fallback.bit ",
      "write_cfgmem -force -format bin -interface spix4 -size 16 -loadbit \"up 0x0 {build_name}_fallback.bit\" -file {build_name}_fallback.bin"] :=
  ⟨rfl, rfl⟩

/-- C2: for every name outside `{"openocd", "vivado"}`, `create_programmer`
produces no backend at all (the unsupported-programmer failure outcome,
embedded as `none`); in particular it never falls back to a default
backend. -/
theorem create_programmer_unsupported (name : String)
    (h1 : name ≠ "openocd") (h2 : name ≠ "vivado") :
    create_programmer name = none := by
  unfold create_programmer
  rw [if_neg h1, if_neg h2]

/-- C2 (witness): the concrete unsupported name `"bogus"`. -/
theorem create_programmer_unsupported_witness :
    "bogus" ≠ "openocd" ∧ "bogus" ≠ "vivado" ∧
    create_programmer "bogus" = none :=
  ⟨by decide, by decide,
    create_programmer_unsupported "bogus" (by decide) (by decide)⟩

/-- C3: if no clock-like resource resolvable (even loosely) to `"clk200"`
exists in the design produced by the base finalize step, `do_finalize`
fails with the `MissingClockConstraint` kind, surfaced by the lookup. -/
theorem do_finalize_missing_clock (base : Design → Design) (d : Design)
    (h : "clk200" ∉ (base d).clock_resources) :
    do_finalize base d = Except.error FinalizeError.MissingClockConstraint := by
  simp [do_finalize, lookup_request, h]

/-- C3 (witness): the identity base step and a design with no clock
resources at all. -/
theorem do_finalize_missing_clock_witness :
    "clk200" ∉ (id (Design.mk [] [])).clock_resources ∧
    do_finalize id (Design.mk [] []) =
      Except.error FinalizeError.MissingClockConstraint :=
  ⟨by decide, do_finalize_missing_clock id (Design.mk [] []) (by decide)⟩

/-- C4: `create_programmer "openocd"` carries the debug-adapter config
`"openocd_xc7_ft232.cfg"` and the boundary-scan bitstream
`"bscan_spi_xc7a200t.bit"`; `create_programmer "vivado"` carries the flash
part `"s25fl256sxxxxxx0-spi-x1_x2_x4"`. -/
theorem create_programmer_backends :
    create_programmer "openocd" =
      some (Programmer.OpenOCD "openocd_xc7_ft232.cfg" "bscan_spi_xc7a200t.bit") ∧
    create_programmer "vivado" =
      some (Programmer.VivadoProgrammer "s25fl256sxxxxxx0-spi-x1_x2_x4") :=
  ⟨rfl, rfl⟩

/-- C5: for every toolchain name, the constructed descriptor's device
string is exactly `"xc7a100t-fgg484-2"`. -/
theorem device_id_constant (toolchain : String) :
    (Platform.init toolchain).device = "xc7a100t-fgg484-2" :=
  rfl

/-- C6: the default clock name is `"clk200"`, the default clock period is
`1e9/200e6`, i.e. exactly 5 ns, and `"clk200"` names a pin-constraint
entry present in the IO table. -/
theorem default_clock_spec (toolchain : String) :
    (Platform.init toolchain).default_clk_name = "clk200" ∧
    (Platform.init toolchain).default_clk_period = 1000000000 / 200000000 ∧
    (Platform.init toolchain).default_clk_period = 5 ∧
    ∃ r ∈ (Platform.init toolchain).io_table,
      r.name = (Platform.init toolchain).default_clk_name := by
  refine ⟨rfl, rfl, period_ns_eq_five, ?_⟩
  show ∃ r ∈ io_entries, r.name = "clk200"
  decide

/-- C7: in the IO table, entries with distinct `(name, number)` keys have
pairwise disjoint physical pin sets; exactly two entries carry the key
`("sma", 2)`, those two have disjoint pin sets, and no entry carries the
key `("sma", 3)`. -/
theorem io_pin_binding_invariant :
    io_entries.Pairwise (fun r1 r2 =>
      ((r1.name, r1.number) ≠ (r2.name, r2.number)) →
        ∀ p ∈ allPins r1, p ∉ allPins r2) ∧
    (io_entries.filter (fun r => r.name = "sma" && r.number == 2)).length = 2 ∧
    (io_entries.filter (fun r => r.name = "sma" && r.number == 2)).Pairwise
      (fun r1 r2 => ∀ p ∈ allPins r1, p ∉ allPins r2) ∧
    ∀ r ∈ io_entries, ¬(r.name = "sma" ∧ r.number = 3) := by
  refine ⟨by decide, by decide, by decide, by decide⟩

/-- C8: if a clock resource resolvable to `"clk200"` is present after the
base finalize step, `do_finalize` succeeds and its result is the
base-finalized design with exactly one constraint appended: a 5 ns
period bound on `"clk200"`, which is therefore in the resulting set. -/
theorem do_finalize_period_bound (base : Design → Design) (d : Design)
    (h : "clk200" ∈ (base d).clock_resources) :
    do_finalize base d = Except.ok
      { base d with period_constraints :=
          (base d).period_constraints ++ [PeriodConstraint.mk "clk200" 5] } ∧
    ∀ d2, do_finalize base d = Except.ok d2 →
      PeriodConstraint.mk "clk200" 5 ∈ d2.period_constraints := by
  have hmain : do_finalize base d = Except.ok
      { base d with period_constraints :=
          (base d).period_constraints ++ [PeriodConstraint.mk "clk200" 5] } := by
    simp [do_finalize, lookup_request, add_period_constraint, h, period_ns_eq_five]
  refine ⟨hmain, ?_⟩
  intro d2 h2
  rw [hmain] at h2
  cases h2
  exact List.mem_append_right _ (List.mem_singleton.mpr rfl)

/-- C8 (witness): the identity base step and a design whose only resource
is `"clk200"`. -/
theorem do_finalize_period_bound_witness :
    "clk200" ∈ (id (Design.mk ["clk200"] [])).clock_resources ∧
    (do_finalize id (Design.mk ["clk200"] []) = Except.ok
      { id (Design.mk ["clk200"] []) with period_constraints :=
          (id (Design.mk ["clk200"] [])).period_constraints ++
            [PeriodConstraint.mk "clk200" 5] } ∧
    ∀ d2, do_finalize id (Design.mk ["clk200"] []) = Except.ok d2 →
      PeriodConstraint.mk "clk200" 5 ∈ d2.period_constraints) :=
  ⟨by decide, do_finalize_period_bound id (Design.mk ["clk200"] []) (by decide)⟩

/-- C9: the programmer-selection default name is `"openocd"` and selects
the OpenOCD backend, while the construction default toolchain is
`"vivado"`; the two defaults differ. -/
theorem programmer_default_asymmetry :
    default_programmer_name = "openocd" ∧
    create_programmer default_programmer_name =
      some (Programmer.OpenOCD "openocd_xc7_ft232.cfg" "bscan_spi_xc7a200t.bit") ∧
    default_toolchain = "vivado" ∧
    default_programmer_name ≠ default_toolchain :=
  ⟨rfl, rfl, rfl, by decide⟩

/-- C10: for every pair of toolchain names, the two constructed
descriptors agree on the IO table, device string, default clock name and
period, and both command lists: `toolchain` influences none of them. -/
theorem construct_noninterference (t1 t2 : String) :
    (Platform.init t1).io_table = (Platform.init t2).io_table ∧
    (Platform.init t1).device = (Platform.init t2).device ∧
    (Platform.init t1).default_clk_name = (Platform.init t2).default_clk_name ∧
    (Platform.init t1).default_clk_period = (Platform.init t2).default_clk_period ∧
    (Platform.init t1).bitstream_commands = (Platform.init t2).bitstream_commands ∧
    (Platform.init t1).additional_commands = (Platform.init t2).additional_commands :=
  ⟨rfl, rfl, rfl, rfl, rfl, rfl⟩
